import Mathlib

/-!
Verification development for the OmniRoute route-optimizer service
(`services/route-optimizer/app/vrp_solver.py` and its caller
`services/route-optimizer/app/main.py`).

The Python module is a thin wrapper around an external constraint solver
(Google OR-Tools).  The embedding below translates:

* the dataclasses `Location`, `Vehicle`, `VRPConfig`, `Route`, `VRPSolution`;
* the pure helpers `calculate_distance_matrix` and `haversine_distance`
  (floating-point arithmetic idealized as exact real arithmetic, with
  Python's `int()` conversion modelled as truncation toward zero);
* `VRPSolver._extract_solution`, which walks each vehicle's final route in
  the solver's assignment and builds the returned `VRPSolution`;
* the constraint system `VRPSolver.solve` registers with the external
  solver (the Distance dimension, the Capacity dimension when
  `use_capacity`, the Time dimension and per-stop windows when
  `use_time_windows` and a truthy time matrix are given, and one
  disjunction with penalty 100000 for every non-depot node).

The external search itself is not part of the repository; it is modelled by
its contract: `SolveWithParameters` either fails (`none`) or returns an
assignment of vehicle walks that satisfies every registered constraint
(`FeasibleAsgn`).  An assignment is given as one node walk per vehicle,
each walk starting at the depot node 0, listing the nodes the vehicle
visits in order before returning to its end node (the depot).
-/

namespace OmniRoute

/-- `Location` dataclass: a delivery location.  Demand and service time are
non-negative integers (the spec's data model), time windows are minutes. -/
structure Location where
  id : String
  latitude : ℝ
  longitude : ℝ
  demand : Nat := 1
  time_window_start : Option Nat := none
  time_window_end : Option Nat := none
  service_time : Nat := 10

/-- Placeholder used for out-of-range list indexing (the Python code indexes
only in range; claims carry the corresponding bounds). -/
def dummyLoc : Location :=
  { id := "", latitude := 0, longitude := 0, demand := 0, service_time := 0 }

/-- `Vehicle` dataclass: a delivery vehicle. -/
structure Vehicle where
  id : String
  capacity : Nat
  start_location : Location
  end_location : Option Location := none
  max_distance : Option Nat := none
  max_time : Option Nat := none

/-- Placeholder vehicle for out-of-range indexing. -/
def dummyVehicle : Vehicle :=
  { id := "", capacity := 0, start_location := dummyLoc }

/-- `VRPConfig` dataclass: exactly the five fields of the source, with the
source's defaults.  (There is no `drop_penalty` and no
`max_distance_per_vehicle` field.) -/
structure VRPConfig where
  time_limit_seconds : Nat := 30
  first_solution_strategy : String := "PATH_CHEAPEST_ARC"
  local_search_metaheuristic : String := "GUIDED_LOCAL_SEARCH"
  use_time_windows : Bool := true
  use_capacity : Bool := true

/-- `Route` dataclass: one optimized route as returned to the caller. -/
structure Route where
  vehicle_id : String
  stops : List Location
  total_distance : Nat
  total_time : Nat
  total_load : Nat

/-- `VRPSolution` dataclass: the value `VRPSolver.solve` returns. -/
structure VRPSolution where
  routes : List Route
  total_distance : Nat
  total_time : Nat
  dropped_locations : List String
  computation_time_ms : Nat

/-- Matrix entry `M[i][j]` (Python indexes in range; out of range gives 0). -/
def entryD (M : List (List Nat)) (i j : Nat) : Nat :=
  (M.getD i []).getD j 0

/-- Sum of the arc costs along consecutive pairs of a node path, as
accumulated by the `while not routing.IsEnd(index)` loop via
`GetArcCostForVehicle` (whose evaluator is the distance callback). -/
def arcSum (D : List (List Nat)) : List Nat → Nat
  | [] => 0
  | [_] => 0
  | i :: j :: rest => entryD D i j + arcSum D (j :: rest)

/-- `route_distance` accumulated for one vehicle: the walk's arcs plus the
final arc back to the end node, which the index manager maps to node 0. -/
def routeDistance (D : List (List Nat)) (walk : List Nat) : Nat :=
  arcSum D (walk ++ [0])

/-- `route_stops` for one vehicle: every walked node with `node_index > 0`
(the depot is skipped), in walk order, resolved to its `Location`. -/
def routeStops (locs : List Location) (walk : List Nat) : List Location :=
  (walk.filter (fun i => decide (0 < i))).map (fun i => locs.getD i dummyLoc)

/-- `route_load` accumulated for one vehicle: `route_load +=
locations[node_index].demand` over the non-depot walked nodes. -/
def routeLoad (locs : List Location) (walk : List Nat) : Nat :=
  (routeStops locs walk).foldl (fun acc l => acc + l.demand) 0

/-- The `Route` record `_extract_solution` builds for vehicle `v`
(`total_time` is the code's `route_distance // 50` estimate). -/
def vehicleRoute (locs : List Location) (vehs : List Vehicle)
    (D : List (List Nat)) (a : List (List Nat)) (v : Nat) : Route :=
  { vehicle_id := (vehs.getD v dummyVehicle).id
    stops := routeStops locs (a.getD v [])
    total_distance := routeDistance D (a.getD v [])
    total_time := routeDistance D (a.getD v []) / 50
    total_load := routeLoad locs (a.getD v []) }

/-- The route list `_extract_solution` returns: one candidate per vehicle,
keeping only the non-empty ones (`if route_stops:`). -/
def extractRoutes (locs : List Location) (vehs : List Vehicle)
    (D : List (List Nat)) (a : List (List Nat)) : List Route :=
  ((List.range vehs.length).map (vehicleRoute locs vehs D a)).filter
    (fun r => !r.stops.isEmpty)

/-- The `visited` set accumulated while walking every vehicle's route
(kept as a list of walked node indices). -/
def visitedOf (m : Nat) (a : List (List Nat)) : List Nat :=
  ((List.range m).map (fun v => a.getD v [])).flatten

/-- The `dropped` list: ids of the non-depot node indices not walked by any
vehicle, in increasing index order (`range(1, len(locations))`). -/
def droppedIds (locs : List Location) (visited : List Nat) : List String :=
  ((List.range locs.length).filter
      (fun i => decide (0 < i) && !(visited.contains i))).map
    (fun i => (locs.getD i dummyLoc).id)

/-- `VRPSolver._extract_solution`: build the reported `VRPSolution` from the
solver's assignment `a` (one walk per vehicle). -/
def extractSolution (locs : List Location) (vehs : List Vehicle)
    (D : List (List Nat)) (a : List (List Nat)) (ct : Nat) : VRPSolution :=
  { routes := extractRoutes locs vehs D a
    total_distance := ((extractRoutes locs vehs D a).map Route.total_distance).sum
    total_time := ((extractRoutes locs vehs D a).map Route.total_distance).sum / 50
    dropped_locations := droppedIds locs (visitedOf vehs.length a)
    computation_time_ms := ct }

/-- `VRPSolver.solve` after the external search: if the search produced an
assignment it is extracted, otherwise the empty solution is returned with
every non-depot location id dropped (`locations[1:]` in input order).
The function is total: there is no error outcome. -/
def solveModel (cfg : VRPConfig) (locs : List Location) (vehs : List Vehicle)
    (D : List (List Nat)) (tmat : Option (List (List Nat)))
    (result : Option (List (List Nat))) (ct : Nat) : VRPSolution :=
  match result with
  | some a => extractSolution locs vehs D a ct
  | none =>
      { routes := []
        total_distance := 0
        total_time := 0
        dropped_locations := (locs.drop 1).map Location.id
        computation_time_ms := ct }

/-- Python truthiness of the `time_matrix` argument in
`if self.config.use_time_windows and time_matrix:`. -/
def timeTruthy : Option (List (List Nat)) → Bool
  | none => false
  | some m => !m.isEmpty

/-- Structural invariant of any assignment the external routing solver can
return for a model built over `n` locations and `m` vehicles with depot 0:
one walk per vehicle, each walk beginning at the depot node, all later
nodes proper location indices, and no node served by two walk positions. -/
def WellFormedAsgn (n m : Nat) (a : List (List Nat)) : Prop :=
  a.length = m ∧
  (∀ w ∈ a, w.take 1 = [0]) ∧
  (∀ w ∈ a, ∀ i ∈ w.drop 1, 0 < i ∧ i < n) ∧
  (a.map (fun w => w.drop 1)).flatten.Nodup

/-- The Distance dimension `solve` always registers: zero slack, cumulative
arc cost capped at 100000 at every position of every vehicle's path. -/
def DistanceFeasible (D : List (List Nat)) (m : Nat)
    (a : List (List Nat)) : Prop :=
  ∀ v < m, ∀ k ≤ (a.getD v [] ++ [0]).length,
    arcSum D ((a.getD v [] ++ [0]).take k) ≤ 100000

/-- The Capacity dimension registered when `use_capacity`: zero slack, the
cumulative demand of the walked nodes (the cumul variable at every path
position, including the end node) stays within the vehicle's capacity. -/
def CapacityFeasible (locs : List Location) (vehs : List Vehicle)
    (a : List (List Nat)) : Prop :=
  ∀ v < vehs.length, ∀ k ≤ (a.getD v []).length,
    (((a.getD v []).take k).map (fun i => (locs.getD i dummyLoc).demand)).sum
      ≤ (vehs.getD v dummyVehicle).capacity

/-- Transit of the Time dimension between positions `j` and `j+1` of a
path: `time_matrix[from][to] + locations[from].service_time`. -/
def timeTransit (locs : List Location) (T : List (List Nat))
    (path : List Nat) (j : Nat) : Nat :=
  entryD T (path.getD j 0) (path.getD (j + 1) 0)
    + (locs.getD (path.getD j 0) dummyLoc).service_time

/-- The `SetRange(time_window_start, time_window_end)` constraint on the
Time cumul variable of a walk position, active only when both bounds are
declared (`if ... is not None and ... is not None`). -/
def windowOk (locs : List Location) (walk : List Nat) (j t : Nat) : Prop :=
  match (locs.getD (walk.getD j 0) dummyLoc).time_window_start,
        (locs.getD (walk.getD j 0) dummyLoc).time_window_end with
  | some s, some e => s ≤ t ∧ t ≤ e
  | _, _ => True

/-- The Time dimension registered when `use_time_windows` holds and a truthy
time matrix is given: per-vehicle cumul times within the 480-minute
horizon, advancing by at least the transit and at most transit plus the
30-minute slack, and satisfying every declared window range. -/
def TimeFeasible (locs : List Location) (T : List (List Nat)) (m : Nat)
    (a : List (List Nat)) : Prop :=
  ∀ v < m, ∃ ts : List Nat,
    ts.length = (a.getD v []).length + 1 ∧
    (∀ t ∈ ts, t ≤ 480) ∧
    (∀ j, j + 1 < ts.length →
      ts.getD j 0 + timeTransit locs T (a.getD v [] ++ [0]) j ≤ ts.getD (j + 1) 0 ∧
      ts.getD (j + 1) 0 ≤ ts.getD j 0 + timeTransit locs T (a.getD v [] ++ [0]) j + 30) ∧
    (∀ j < (a.getD v []).length, windowOk locs (a.getD v []) j (ts.getD j 0))

/-- Contract of the external `SolveWithParameters` call: any assignment it
returns satisfies exactly the constraints `solve` registered — the walk
structure, the Distance dimension, the Capacity dimension if
`use_capacity`, and the Time dimension only if `use_time_windows` and a
truthy `time_matrix` were both supplied. -/
def FeasibleAsgn (cfg : VRPConfig) (locs : List Location)
    (vehs : List Vehicle) (D : List (List Nat))
    (tmat : Option (List (List Nat))) (a : List (List Nat)) : Prop :=
  WellFormedAsgn locs.length vehs.length a ∧
  DistanceFeasible D vehs.length a ∧
  (cfg.use_capacity = true → CapacityFeasible locs vehs a) ∧
  (cfg.use_time_windows = true ∧ timeTruthy tmat = true →
    TimeFeasible locs (tmat.getD []) vehs.length a)

instance (n m : Nat) (a : List (List Nat)) : Decidable (WellFormedAsgn n m a) := by
  unfold WellFormedAsgn; exact inferInstance

instance (D : List (List Nat)) (m : Nat) (a : List (List Nat)) :
    Decidable (DistanceFeasible D m a) := by
  unfold DistanceFeasible; exact inferInstance

instance (locs : List Location) (vehs : List Vehicle) (a : List (List Nat)) :
    Decidable (CapacityFeasible locs vehs a) := by
  unfold CapacityFeasible; exact inferInstance

/-- The objective the routing model minimizes: total arc cost of all
vehicles plus the penalty of every inactive disjunction.  `solve` adds one
disjunction with the fixed literal penalty 100000 for every non-depot node
(`penalty = 100000`), so each unvisited non-depot node costs 100000. -/
def solveObjective (locs : List Location) (vehs : List Vehicle)
    (D : List (List Nat)) (a : List (List Nat)) : Nat :=
  ((List.range vehs.length).map (fun v => routeDistance D (a.getD v []))).sum
    + 100000 *
      ((List.range locs.length).filter
        (fun i => decide (0 < i) && !((visitedOf vehs.length a).contains i))).length

/-- Modelled from the spec: the objective the spec's §4.4/§6 describe for a
solver with a recognized `drop_penalty` config option `P` — "sum of all
route arc costs + P × (count of dropped stops)".  The source's `VRPConfig`
has no such option; this definition exists to be compared with
`solveObjective`. -/
def specObjective (drop_penalty : Nat) (locs : List Location)
    (vehs : List Vehicle) (D : List (List Nat)) (a : List (List Nat)) : Nat :=
  ((List.range vehs.length).map (fun v => routeDistance D (a.getD v []))).sum
    + drop_penalty *
      ((List.range locs.length).filter
        (fun i => decide (0 < i) && !((visitedOf vehs.length a).contains i))).length

/-- `np.radians`: degrees to radians. -/
noncomputable def radians (x : ℝ) : ℝ := x * Real.pi / 180

/-- `np.arctan2 y x`: the standard two-argument arctangent convention
(`arctan2(±0, +0) = ±0`, `arctan2(y, 0) = ±π/2`, shift by π on the
negative-`x` half-plane). -/
noncomputable def arctan2 (y x : ℝ) : ℝ :=
  if 0 < x then Real.arctan (y / x)
  else if x < 0 then
    (if 0 ≤ y then Real.arctan (y / x) + Real.pi
     else Real.arctan (y / x) - Real.pi)
  else
    (if 0 < y then Real.pi / 2 else if y < 0 then -(Real.pi / 2) else 0)

/-- The intermediate `a` of `haversine_distance`:
`sin(delta_phi/2)**2 + cos(phi1)*cos(phi2)*sin(delta_lambda/2)**2`. -/
noncomputable def haversineA (lat1 lon1 lat2 lon2 : ℝ) : ℝ :=
  Real.sin (radians (lat2 - lat1) / 2) ^ 2
    + Real.cos (radians lat1) * Real.cos (radians lat2)
      * Real.sin (radians (lon2 - lon1) / 2) ^ 2

/-- The intermediate `c` of `haversine_distance`:
`2 * arctan2(sqrt(a), sqrt(1-a))`. -/
noncomputable def haversineC (lat1 lon1 lat2 lon2 : ℝ) : ℝ :=
  2 * arctan2 (Real.sqrt (haversineA lat1 lon1 lat2 lon2))
    (Real.sqrt (1 - haversineA lat1 lon1 lat2 lon2))

/-- The real value `R * c` computed inside `haversine_distance` before the
`int()` conversion (floating-point arithmetic idealized as exact reals).
This is the haversine great-circle distance in meters. -/
noncomputable def haversineReal (lat1 lon1 lat2 lon2 : ℝ) : ℝ :=
  6371000 * haversineC lat1 lon1 lat2 lon2

/-- Python's `int()` conversion of a float: truncation toward zero. -/
noncomputable def pyInt (x : ℝ) : ℤ :=
  if 0 ≤ x then ⌊x⌋ else -⌊-x⌋

/-- `haversine_distance`: the source returns `int(R * c)`. -/
noncomputable def haversine_distance (lat1 lon1 lat2 lon2 : ℝ) : ℤ :=
  pyInt (haversineReal lat1 lon1 lat2 lon2)

/-- `calculate_distance_matrix`: an `n × n` matrix, zero on the diagonal
and `haversine_distance` between the two locations off the diagonal.  The
source performs no validation of `len(locations)` and cannot fail. -/
noncomputable def calculate_distance_matrix (locations : List Location) :
    List (List ℤ) :=
  (List.range locations.length).map (fun i =>
    (List.range locations.length).map (fun j =>
      if i = j then 0
      else
        haversine_distance
          (locations.getD i dummyLoc).latitude (locations.getD i dummyLoc).longitude
          (locations.getD j dummyLoc).latitude (locations.getD j dummyLoc).longitude))

/-! Concrete instances used by witnesses and counterexamples. -/

/-- The source's default configuration, which is also what
`main.py`'s `optimize_routes` builds for a request with default fields. -/
def cfg0 : VRPConfig := {}

/-- A depot location (node 0). -/
def depot0 : Location :=
  { id := "depot", latitude := 0, longitude := 0, demand := 0 }

/-- A stop with a declared time window `[0, 10]`. -/
def lateStop : Location :=
  { id := "late", latitude := 0, longitude := 0, demand := 1,
    time_window_start := some 0, time_window_end := some 10 }

/-- A stop whose demand 10 exceeds the capacity of every vehicle below. -/
def bigStop : Location :=
  { id := "big", latitude := 0, longitude := 0, demand := 10 }

/-- An ordinary stop with demand 2. -/
def smallStop : Location :=
  { id := "s1", latitude := 0, longitude := 0, demand := 2 }

/-- A vehicle of capacity 5 starting at the depot. -/
def veh5 : Vehicle := { id := "v1", capacity := 5, start_location := depot0 }

/-- Instance with the time-windowed stop, 3000 m from the depot. -/
def locsLate : List Location := [depot0, lateStop]

/-- Instance with the over-demand stop. -/
def locsBig : List Location := [depot0, bigStop]

/-- Instance with the ordinary stop. -/
def locsSmall : List Location := [depot0, smallStop]

/-- Single vehicle fleet. -/
def vehs1 : List Vehicle := [veh5]

/-- Distance matrix placing the single stop 3000 m from the depot. -/
def dmat3000 : List (List Nat) := [[0, 3000], [3000, 0]]

/-- Distance matrix placing the single stop 100 m from the depot. -/
def dmat100 : List (List Nat) := [[0, 100], [100, 0]]

/-- The assignment whose only vehicle visits the single stop. -/
def asgnVisit : List (List Nat) := [[0, 1]]

/-- The assignment whose only vehicle visits nothing. -/
def asgnEmpty : List (List Nat) := [[0]]

/-- Location at (1, 2). -/
def locA : Location := { id := "a", latitude := 1, longitude := 2 }

/-- Location at (3, 4). -/
def locB : Location := { id := "b", latitude := 3, longitude := 4, demand := 7 }

/-- Same coordinates as `locA` but different id and demand. -/
def locA2 : Location :=
  { id := "renamed", latitude := 1, longitude := 2, demand := 9 }

/-- Same coordinates as `locB` but different id and service time. -/
def locB2 : Location :=
  { id := "other", latitude := 3, longitude := 4, service_time := 0 }

/-! Helper lemmas. -/

theorem range_map_getD {m : Nat} {a : List (List Nat)} (h : a.length = m) :
    (List.range m).map (fun v => a.getD v []) = a := by
  apply List.ext_getElem
  · simp [h]
  · intro i h1 h2
    simp only [List.getElem_map, List.getElem_range]
    exact List.getD_eq_getElem a [] h2

theorem walk_head_shape {w : List Nat} (hw : w.take 1 = [0]) :
    w = 0 :: w.drop 1 := by
  cases w with
  | nil => simp at hw
  | cons x t =>
      simp only [List.take_succ_cons, List.take_zero] at hw
      simp [List.cons.injEq] at hw
      simp [hw]

theorem filter_pos_of_walk {w : List Nat} (hw : w.take 1 = [0])
    (hpos : ∀ i ∈ w.drop 1, 0 < i) :
    w.filter (fun i => decide (0 < i)) = w.drop 1 := by
  conv_lhs => rw [walk_head_shape hw]
  rw [List.filter_cons]
  simp only [decide_eq_true_eq]
  rw [if_neg (by omega)]
  exact List.filter_eq_self.mpr (fun a ha => by simpa using hpos a ha)

theorem foldl_add_demand (l : List Location) (acc : Nat) :
    l.foldl (fun a x => a + x.demand) acc = acc + (l.map Location.demand).sum := by
  induction l generalizing acc with
  | nil => simp
  | cons x t ih => simp [List.foldl_cons, ih, Nat.add_assoc]

theorem routeLoad_eq_sum (locs : List Location) (walk : List Nat) :
    routeLoad locs walk = ((routeStops locs walk).map Location.demand).sum := by
  unfold routeLoad
  rw [foldl_add_demand, Nat.zero_add]

theorem idOf_inj {locs : List Location} (hids : (locs.map Location.id).Nodup)
    {i j : Nat} (hi : i < locs.length) (hj : j < locs.length)
    (h : (locs.getD i dummyLoc).id = (locs.getD j dummyLoc).id) : i = j := by
  rw [List.getD_eq_getElem locs dummyLoc hi, List.getD_eq_getElem locs dummyLoc hj] at h
  have hi' : i < (locs.map Location.id).length := by simpa using hi
  have hj' : j < (locs.map Location.id).length := by simpa using hj
  have hget : (locs.map Location.id).get ⟨i, hi'⟩ = (locs.map Location.id).get ⟨j, hj'⟩ := by
    simpa using h
  have h2 : (⟨i, hi'⟩ : Fin (locs.map Location.id).length) = ⟨j, hj'⟩ :=
    (List.Nodup.get_inj_iff hids).mp hget
  simpa using h2

theorem count_map_idOf {locs : List Location}
    (hids : (locs.map Location.id).Nodup) {i : Nat} (hi : i < locs.length)
    {S : List Nat} (hS : ∀ j ∈ S, j < locs.length) :
    (S.map (fun j => (locs.getD j dummyLoc).id)).count (locs.getD i dummyLoc).id
      = S.count i := by
  induction S with
  | nil => simp
  | cons x t ih =>
      have hx : x < locs.length := hS x (by simp)
      have ht : ∀ j ∈ t, j < locs.length := fun j hj => hS j (by simp [hj])
      rw [List.map_cons, List.count_cons, List.count_cons, ih ht]
      congr 1
      simp only [beq_iff_eq]
      by_cases hxi : x = i
      · subst hxi; simp
      · have hne : ¬ (locs.getD x dummyLoc).id = (locs.getD i dummyLoc).id :=
          fun hc => hxi (idOf_inj hids hx hi hc)
        rw [if_neg hne, if_neg hxi]

theorem count_filter_range (n : Nat) (p : Nat → Bool) (i : Nat) :
    ((List.range n).filter p).count i
      = if p i = true ∧ i < n then 1 else 0 := by
  rw [List.count_eq_of_nodup ((List.nodup_range n).filter p)]
  congr 1
  simp [List.mem_filter, List.mem_range, and_comm]

theorem visitedOf_eq {m : Nat} {a : List (List Nat)} (h : a.length = m) :
    visitedOf m a = a.flatten := by
  unfold visitedOf
  rw [range_map_getD h]

theorem mem_visited_iff_tail {n m : Nat} {a : List (List Nat)}
    (hwf : WellFormedAsgn n m a) {i : Nat} (hi : 0 < i) :
    i ∈ visitedOf m a ↔ i ∈ (a.map (fun w => w.drop 1)).flatten := by
  rw [visitedOf_eq hwf.1]
  simp only [List.mem_flatten, List.mem_map]
  constructor
  · rintro ⟨w, hw, hiw⟩
    refine ⟨w.drop 1, ⟨w, hw, rfl⟩, ?_⟩
    rw [walk_head_shape (hwf.2.1 w hw)] at hiw
    rcases List.mem_cons.mp hiw with h0 | h1
    · omega
    · exact h1
  · rintro ⟨l, ⟨w, hw, hl⟩, hil⟩
    exact ⟨w, hw, List.mem_of_mem_drop (hl ▸ hil)⟩

theorem count_flatten_filter_empty (L : List Route) (x : String) :
    (((L.filter (fun r => !r.stops.isEmpty)).map
        (fun r => r.stops.map Location.id)).flatten).count x
      = ((L.map (fun r => r.stops.map Location.id)).flatten).count x := by
  induction L with
  | nil => simp
  | cons r L ih =>
      rw [List.filter_cons]
      by_cases hr : (!r.stops.isEmpty) = true
      · rw [if_pos hr]
        simp only [List.map_cons, List.flatten_cons, List.count_append, ih]
      · rw [if_neg hr]
        have hempty : r.stops = [] := by
          simp only [Bool.not_eq_true'] at hr
          simpa [List.isEmpty_iff] using hr
        simp [hempty, ih]

theorem map_getD_range {α β : Type} (l : List α) (f : α → β) (d : α) :
    (List.range l.length).map (fun k => f (l.getD k d)) = l.map f := by
  apply List.ext_getElem
  · simp
  · intro i h1 h2
    simp only [List.getElem_map, List.getElem_range]
    rw [List.getD_eq_getElem l d (by simpa using h2)]

theorem count_routes_eq {locs : List Location} {vehs : List Vehicle}
    {D : List (List Nat)} {a : List (List Nat)}
    (hwf : WellFormedAsgn locs.length vehs.length a)
    (hids : (locs.map Location.id).Nodup) {i : Nat} (hin : i < locs.length) :
    (((extractRoutes locs vehs D a).map
        (fun r => r.stops.map Location.id)).flatten).count (locs.getD i dummyLoc).id
      = ((a.map (fun w => w.drop 1)).flatten).count i := by
  unfold extractRoutes
  rw [count_flatten_filter_empty, List.count_flatten, List.count_flatten]
  conv_rhs => rw [← range_map_getD hwf.1]
  rw [List.map_map, List.map_map, List.map_map, List.map_map]
  apply congrArg List.sum
  apply List.map_congr_left
  intro v hv
  have hvm : v < vehs.length := List.mem_range.mp hv
  have hva : v < a.length := by rw [hwf.1]; exact hvm
  have hwmem : a.getD v [] ∈ a := by
    rw [List.getD_eq_getElem a [] hva]
    exact List.getElem_mem hva
  simp only [Function.comp_apply, vehicleRoute]
  unfold routeStops
  rw [filter_pos_of_walk (hwf.2.1 _ hwmem) (fun j hj => (hwf.2.2.1 _ hwmem j hj).1)]
  rw [List.map_map]
  exact count_map_idOf hids hin (fun j hj => (hwf.2.2.1 _ hwmem j hj).2)

theorem count_dropped_eq {locs : List Location} {visited : List Nat}
    (hids : (locs.map Location.id).Nodup) {i : Nat} (hi : 0 < i)
    (hin : i < locs.length) :
    (droppedIds locs visited).count (locs.getD i dummyLoc).id
      = if i ∈ visited then 0 else 1 := by
  unfold droppedIds
  rw [count_map_idOf hids hin
    (fun j hj => List.mem_range.mp (List.mem_filter.mp hj).1)]
  rw [count_filter_range]
  by_cases h : i ∈ visited
  · simp [h, hi, hin]
  · simp [h, hi, hin, List.elem_iff]

theorem drop_map_id_count {locs : List Location}
    (hids : (locs.map Location.id).Nodup) {i : Nat} (hi : 0 < i)
    (hin : i < locs.length) :
    ((locs.drop 1).map Location.id).count (locs.getD i dummyLoc).id = 1 := by
  rw [List.map_drop]
  have hnd : ((locs.map Location.id).drop 1).Nodup :=
    hids.sublist (List.drop_sublist 1 (locs.map Location.id))
  rw [List.count_eq_of_nodup hnd]
  have hmem : (locs.getD i dummyLoc).id ∈ (locs.map Location.id).drop 1 := by
    have hlen : i - 1 < ((locs.map Location.id).drop 1).length := by
      simp only [List.length_drop, List.length_map]
      omega
    refine List.mem_iff_getElem.mpr ⟨i - 1, hlen, ?_⟩
    rw [List.getElem_drop]
    simp only [show 1 + (i - 1) = i from by omega]
    rw [List.getElem_map, List.getD_eq_getElem locs dummyLoc hin]
  rw [if_pos hmem]

theorem drop_map_id_eq (locs : List Location) :
    (locs.drop 1).map Location.id
      = ((List.range locs.length).filter (fun i => decide (0 < i))).map
          (fun i => (locs.getD i dummyLoc).id) := by
  cases locs with
  | nil => simp
  | cons d t =>
      rw [List.length_cons, List.range_succ_eq_map, List.filter_cons]
      rw [if_neg (by simp)]
      rw [List.filter_eq_self.mpr (by
        intro b hb
        rcases List.mem_map.mp hb with ⟨k, _, hk⟩
        simp [← hk])]
      rw [List.map_map]
      simp only [List.drop_succ_cons, List.drop_zero]
      rw [← map_getD_range t Location.id dummyLoc]
      apply List.map_congr_left
      intro k hk
      simp [List.getD_cons_succ]

theorem stops_eq_tail_map {locs : List Location} {vehs : List Vehicle}
    {a : List (List Nat)} (hwf : WellFormedAsgn locs.length vehs.length a)
    {v : Nat} (hvm : v < vehs.length) :
    routeStops locs (a.getD v [])
      = ((a.getD v []).drop 1).map (fun j => locs.getD j dummyLoc) := by
  have hva : v < a.length := by rw [hwf.1]; exact hvm
  have hwmem : a.getD v [] ∈ a := by
    rw [List.getD_eq_getElem a [] hva]
    exact List.getElem_mem hva
  unfold routeStops
  rw [filter_pos_of_walk (hwf.2.1 _ hwmem) (fun j hj => (hwf.2.2.1 _ hwmem j hj).1)]

theorem takeLoad_le {locs : List Location} {vehs : List Vehicle}
    {a : List (List Nat)} (hwf : WellFormedAsgn locs.length vehs.length a)
    (hcapf : CapacityFeasible locs vehs a) {v : Nat} (hvm : v < vehs.length)
    (k : Nat) :
    (((routeStops locs (a.getD v [])).take k).map Location.demand).sum
      ≤ (vehs.getD v dummyVehicle).capacity := by
  have hva : v < a.length := by rw [hwf.1]; exact hvm
  have hwmem : a.getD v [] ∈ a := by
    rw [List.getD_eq_getElem a [] hva]
    exact List.getElem_mem hva
  obtain ⟨tail, htail⟩ : ∃ t, a.getD v [] = 0 :: t :=
    ⟨(a.getD v []).drop 1, walk_head_shape (hwf.2.1 _ hwmem)⟩
  rw [stops_eq_tail_map hwf hvm, htail]
  simp only [List.drop_succ_cons, List.drop_zero]
  rw [← List.map_take, List.map_map]
  have hcap := hcapf v hvm
  rw [htail] at hcap
  rcases Nat.le_total k tail.length with hk | hk
  · have hx := hcap (k + 1) (by simp only [List.length_cons]; omega)
    rw [List.take_succ_cons] at hx
    simp only [List.map_cons, List.sum_cons] at hx
    have : (((tail.take k).map (fun i => (locs.getD i dummyLoc).demand))).sum
        ≤ (locs.getD 0 dummyLoc).demand
          + (((tail.take k).map (fun i => (locs.getD i dummyLoc).demand))).sum :=
      Nat.le_add_left _ _
    exact le_trans this hx
  · rw [List.take_of_length_le hk]
    have hx := hcap (tail.length + 1) (by simp)
    rw [List.take_of_length_le (by simp)] at hx
    simp only [List.map_cons, List.sum_cons] at hx
    have : ((tail.map (fun i => (locs.getD i dummyLoc).demand))).sum
        ≤ (locs.getD 0 dummyLoc).demand
          + ((tail.map (fun i => (locs.getD i dummyLoc).demand))).sum :=
      Nat.le_add_left _ _
    exact le_trans this hx

/-- A feasible assignment for the instance whose single stop has a declared
time window but where `solve` is called with `time_matrix = None` (as
`main.py` always does): no Time dimension is registered, so the assignment
that serves the windowed stop satisfies every registered constraint. -/
theorem feasible_late_visit :
    FeasibleAsgn cfg0 locsLate vehs1 dmat3000 none asgnVisit :=
  ⟨by decide, by decide, fun _ => by decide, fun h => absurd h.2 (by decide)⟩

/-- A feasible assignment for the over-demand instance: the vehicle serves
nothing (the stop cannot be served without violating the Capacity
dimension). -/
theorem feasible_big_empty :
    FeasibleAsgn cfg0 locsBig vehs1 dmat100 none asgnEmpty :=
  ⟨by decide, by decide, fun _ => by decide, fun h => absurd h.2 (by decide)⟩

/-! Claims. -/

/-- C1: for every solution `solve` can return — the extraction of a
feasible assignment, or the empty solution when the search fails — every
non-depot location's id occurs exactly once in the concatenation of the
returned routes' stop-id sequences and the dropped list: in exactly one
route or dropped, never both, never neither, never duplicated. -/
theorem c1_stop_partition (cfg : VRPConfig) (locs : List Location)
    (vehs : List Vehicle) (D : List (List Nat))
    (tmat : Option (List (List Nat))) (result : Option (List (List Nat)))
    (ct i : Nat) (hids : (locs.map Location.id).Nodup)
    (hres : ∀ a, result = some a → FeasibleAsgn cfg locs vehs D tmat a)
    (hi : 0 < i) (hin : i < locs.length) :
    (((solveModel cfg locs vehs D tmat result ct).routes.map
        (fun r => r.stops.map Location.id)).flatten).count (locs.getD i dummyLoc).id
      + ((solveModel cfg locs vehs D tmat result ct).dropped_locations).count
          (locs.getD i dummyLoc).id = 1 := by
  cases result with
  | none =>
      simp only [solveModel, List.map_nil, List.flatten_nil, List.count_nil,
        Nat.zero_add]
      exact drop_map_id_count hids hi hin
  | some a =>
      obtain ⟨hwf, _, _, _⟩ := hres a rfl
      simp only [solveModel, extractSolution]
      rw [count_routes_eq hwf hids hin, count_dropped_eq hids hi hin]
      by_cases hv : i ∈ visitedOf vehs.length a
      · rw [if_pos hv]
        have hmemtail : i ∈ (a.map (fun w => w.drop 1)).flatten :=
          (mem_visited_iff_tail hwf hi).mp hv
        rw [List.count_eq_one_of_mem hwf.2.2.2 hmemtail]
      · rw [if_neg hv]
        have hnot : i ∉ (a.map (fun w => w.drop 1)).flatten :=
          fun hc => hv ((mem_visited_iff_tail hwf hi).mpr hc)
        rw [List.count_eq_zero.mpr hnot]

/-- Witness for C1 at a concrete instance (stop 1 is served by the only
vehicle, so its id is counted once across routes and dropped). -/
theorem c1_stop_partition_witness :
    (locsLate.map Location.id).Nodup ∧ 0 < 1 ∧ 1 < locsLate.length ∧
    (((solveModel cfg0 locsLate vehs1 dmat3000 none (some asgnVisit) 0).routes.map
        (fun r => r.stops.map Location.id)).flatten).count
          (locsLate.getD 1 dummyLoc).id
      + ((solveModel cfg0 locsLate vehs1 dmat3000 none
            (some asgnVisit) 0).dropped_locations).count
          (locsLate.getD 1 dummyLoc).id = 1 :=
  ⟨by decide, by decide, by decide,
    c1_stop_partition cfg0 locsLate vehs1 dmat3000 none (some asgnVisit) 0 1
      (by decide)
      (fun a ha => by
        injection ha with h
        subst h
        exact feasible_late_visit)
      (by decide) (by decide)⟩

/-- C2: with `use_capacity` enabled, every returned route belongs to a
vehicle whose declared capacity bounds the cumulative load after every
prefix of the route's stop sequence, and hence the route's `total_load`. -/
theorem c2_capacity_bound (cfg : VRPConfig) (locs : List Location)
    (vehs : List Vehicle) (D : List (List Nat))
    (tmat : Option (List (List Nat))) (a : List (List Nat)) (ct : Nat)
    (hcap : cfg.use_capacity = true)
    (hfeas : FeasibleAsgn cfg locs vehs D tmat a) :
    ∀ r ∈ (solveModel cfg locs vehs D tmat (some a) ct).routes,
      ∃ v, v < vehs.length ∧ r.vehicle_id = (vehs.getD v dummyVehicle).id ∧
        (∀ k, ((r.stops.take k).map Location.demand).sum
            ≤ (vehs.getD v dummyVehicle).capacity) ∧
        r.total_load ≤ (vehs.getD v dummyVehicle).capacity := by
  obtain ⟨hwf, _, hcapf, _⟩ := hfeas
  have hcapf := hcapf hcap
  intro r hr
  simp only [solveModel, extractSolution, extractRoutes] at hr
  rcases List.mem_filter.mp hr with ⟨hmem, _⟩
  rcases List.mem_map.mp hmem with ⟨v, hv, rfl⟩
  have hvm : v < vehs.length := List.mem_range.mp hv
  refine ⟨v, hvm, rfl, fun k => takeLoad_le hwf hcapf hvm k, ?_⟩
  show routeLoad locs (a.getD v []) ≤ (vehs.getD v dummyVehicle).capacity
  rw [routeLoad_eq_sum]
  have := takeLoad_le hwf hcapf hvm (routeStops locs (a.getD v [])).length
  rwa [List.take_length] at this

/-- Witness for C2 at a concrete instance. -/
theorem c2_capacity_bound_witness :
    cfg0.use_capacity = true ∧
    ∀ r ∈ (solveModel cfg0 locsLate vehs1 dmat3000 none (some asgnVisit) 0).routes,
      ∃ v, v < vehs1.length ∧ r.vehicle_id = (vehs1.getD v dummyVehicle).id ∧
        (∀ k, ((r.stops.take k).map Location.demand).sum
            ≤ (vehs1.getD v dummyVehicle).capacity) ∧
        r.total_load ≤ (vehs1.getD v dummyVehicle).capacity :=
  ⟨rfl, c2_capacity_bound cfg0 locsLate vehs1 dmat3000 none asgnVisit 0
    rfl feasible_late_visit⟩

/-- C3 (code bug): `main.py` always calls `solver.solve(locations, vehicles,
distance_matrix)` with no time matrix, and `solve` adds the Time dimension
only under `use_time_windows and time_matrix`, so declared time windows
are never enforced for API requests.  At the concrete failing input the
assignment that serves the stop with declared window `[0, 10]` satisfies
every constraint `solve` registers, and the returned route serves it with
the code's own time estimate 120 minutes — far past the declared end. -/
theorem c3_time_window_violating_route_returned :
    FeasibleAsgn cfg0 locsLate vehs1 dmat3000 none asgnVisit ∧
    cfg0.use_time_windows = true ∧
    (locsLate.getD 1 dummyLoc).time_window_end = some 10 ∧
    (solveModel cfg0 locsLate vehs1 dmat3000 none (some asgnVisit) 0).routes.map
        (fun r => r.stops.map Location.id) = [["late"]] ∧
    10 < (solveModel cfg0 locsLate vehs1 dmat3000 none (some asgnVisit) 0).total_time :=
  ⟨feasible_late_visit, rfl, rfl, by decide, by decide⟩

/-- C4 counterexample: there is no way to mark a stop mandatory — `solve`
adds a penalty disjunction for every non-depot node and its return type
has no failure case.  At the concrete instance whose stop's demand 10
exceeds the only vehicle's capacity 5, both outcomes `solve` can produce
(search failure, or extraction of a feasible assignment, which necessarily
leaves the stop unserved) RETURN a solution with the stop dropped; no
`Infeasible` error naming the stop exists. -/
theorem c4_returns_dropped_not_infeasible :
    (solveModel cfg0 locsBig vehs1 dmat100 none none 0).routes = [] ∧
    (solveModel cfg0 locsBig vehs1 dmat100 none none 0).dropped_locations = ["big"] ∧
    FeasibleAsgn cfg0 locsBig vehs1 dmat100 none asgnEmpty ∧
    (solveModel cfg0 locsBig vehs1 dmat100 none
        (some asgnEmpty) 0).dropped_locations = ["big"] :=
  ⟨rfl, rfl, feasible_big_empty, by decide⟩

/-- C4 amended: no stop can be marked mandatory and `solve` never fails
with `Infeasible`; whenever a stop's demand exceeds every vehicle's
capacity (with `use_capacity` enabled), every solution extracted from a
feasible assignment lists that stop in `dropped_locations`. -/
theorem c4_overdemand_always_dropped (cfg : VRPConfig) (locs : List Location)
    (vehs : List Vehicle) (D : List (List Nat))
    (tmat : Option (List (List Nat))) (a : List (List Nat)) (ct i : Nat)
    (hcap : cfg.use_capacity = true)
    (hfeas : FeasibleAsgn cfg locs vehs D tmat a)
    (hi : 0 < i) (hin : i < locs.length)
    (hdem : ∀ v < vehs.length,
      (vehs.getD v dummyVehicle).capacity < (locs.getD i dummyLoc).demand) :
    (locs.getD i dummyLoc).id
      ∈ (solveModel cfg locs vehs D tmat (some a) ct).dropped_locations := by
  obtain ⟨hwf, _, hcapf, _⟩ := hfeas
  have hcapf := hcapf hcap
  have hnv : i ∉ visitedOf vehs.length a := by
    intro hvis
    rw [visitedOf_eq hwf.1] at hvis
    rcases List.mem_flatten.mp hvis with ⟨w, hw, hiw⟩
    rcases List.mem_iff_getElem.mp hw with ⟨v, hva, hveq⟩
    have hvm : v < vehs.length := by rw [← hwf.1]; exact hva
    have hgetD : a.getD v [] = w := by
      rw [List.getD_eq_getElem a [] hva, hveq]
    have hfull := hcapf v hvm (a.getD v []).length (le_refl _)
    rw [List.take_length, hgetD] at hfull
    have hmemd : (locs.getD i dummyLoc).demand
        ∈ w.map (fun j => (locs.getD j dummyLoc).demand) :=
      List.mem_map_of_mem _ hiw
    have hled : (locs.getD i dummyLoc).demand
        ≤ (w.map (fun j => (locs.getD j dummyLoc).demand)).sum :=
      List.single_le_sum (fun x _ => Nat.zero_le x) _ hmemd
    have hv2 := hdem v hvm
    omega
  show (locs.getD i dummyLoc).id ∈ droppedIds locs (visitedOf vehs.length a)
  unfold droppedIds
  apply List.mem_map_of_mem
  apply List.mem_filter.mpr
  refine ⟨List.mem_range.mpr hin, ?_⟩
  rw [Bool.and_eq_true]
  exact ⟨by simpa using hi, by simpa using hnv⟩

/-- Witness for C4's amended statement at the concrete over-demand
instance. -/
theorem c4_overdemand_always_dropped_witness :
    cfg0.use_capacity = true ∧ 0 < 1 ∧ 1 < locsBig.length ∧
    (locsBig.getD 1 dummyLoc).id
      ∈ (solveModel cfg0 locsBig vehs1 dmat100 none
          (some asgnEmpty) 0).dropped_locations :=
  ⟨rfl, by decide, by decide,
    c4_overdemand_always_dropped cfg0 locsBig vehs1 dmat100 none asgnEmpty 0 1
      rfl feasible_big_empty (by decide) (by decide) (by decide)⟩

/-- C5 counterexample: the objective built by `solve` charges the literal
100000 per dropped stop no matter what the configuration says — `VRPConfig`
has no `drop_penalty` field at all — so it differs from the spec's
objective with a configured `drop_penalty` of 7 on an instance with one
dropped stop and zero arc cost. -/
theorem c5_penalty_not_configurable :
    solveObjective locsBig vehs1 dmat100 asgnEmpty = 100000 ∧
    specObjective 7 locsBig vehs1 dmat100 asgnEmpty = 7 ∧
    solveObjective locsBig vehs1 dmat100 asgnEmpty
      ≠ specObjective 7 locsBig vehs1 dmat100 asgnEmpty :=
  ⟨by decide, by decide, by decide⟩

/-- C5 amended: the penalty is the fixed constant 100000 (independent of
the configuration, which has no `drop_penalty` option): the minimized
objective is the sum of all route arc costs plus 100000 times the number
of dropped stops of the extracted solution. -/
theorem c5_fixed_penalty_objective (cfg : VRPConfig) (locs : List Location)
    (vehs : List Vehicle) (D : List (List Nat))
    (tmat : Option (List (List Nat))) (a : List (List Nat)) (ct : Nat) :
    solveObjective locs vehs D a
      = ((List.range vehs.length).map (fun v => routeDistance D (a.getD v []))).sum
        + 100000 *
          (solveModel cfg locs vehs D tmat (some a) ct).dropped_locations.length := by
  simp only [solveModel, extractSolution, droppedIds, solveObjective, List.length_map]

/-- C6 counterexample: `calculate_distance_matrix` performs no validation
and cannot fail — on zero stops and on one stop it returns the (degenerate)
`0 × 0` and `1 × 1` matrices instead of an `InvalidInstance` failure. -/
theorem c6_no_failure_below_two_stops :
    calculate_distance_matrix [] = [] ∧
    calculate_distance_matrix [depot0] = [[0]] :=
  ⟨rfl, rfl⟩

/-- C6 amended: the builder never fails: for any list of `n` stops
(including `n < 2`) it returns an `n × n` matrix with zero diagonal (the
fewer-than-2-stops rejection lives in `main.py`'s HTTP handler, not in the
builder). -/
theorem c6_matrix_total (locs : List Location) :
    (calculate_distance_matrix locs).length = locs.length ∧
    (∀ row ∈ calculate_distance_matrix locs, row.length = locs.length) ∧
    (∀ i, i < locs.length →
      ((calculate_distance_matrix locs).getD i []).getD i 1 = 0) := by
  refine ⟨by simp [calculate_distance_matrix], ?_, ?_⟩
  · intro row hrow
    unfold calculate_distance_matrix at hrow
    rcases List.mem_map.mp hrow with ⟨j, _, hj⟩
    rw [← hj]
    simp
  · intro i hi
    unfold calculate_distance_matrix
    rw [List.getD_eq_getElem _ [] (by simpa using hi)]
    rw [List.getElem_map, List.getElem_range]
    rw [List.getD_eq_getElem _ 1 (by simpa using hi)]
    rw [List.getElem_map, List.getElem_range]
    simp

/-- Witness for C6's amended statement on a two-stop instance. -/
theorem c6_matrix_total_witness :
    (calculate_distance_matrix [depot0, smallStop]).length = 2 ∧
    ((calculate_distance_matrix [depot0, smallStop]).getD 0 []).getD 0 1 = 0 ∧
    ((calculate_distance_matrix [depot0, smallStop]).getD 1 []).getD 1 1 = 0 :=
  ⟨(c6_matrix_total [depot0, smallStop]).1,
    (c6_matrix_total [depot0, smallStop]).2.2 0 (by decide),
    (c6_matrix_total [depot0, smallStop]).2.2 1 (by decide)⟩

/-- C9: when the external search returns no assignment, `solve` does not
raise: it returns the empty solution — no routes, zero totals, the passed
computation time, and the id of every non-depot location, in input order,
dropped. -/
theorem c9_search_failure_solution (cfg : VRPConfig) (locs : List Location)
    (vehs : List Vehicle) (D : List (List Nat))
    (tmat : Option (List (List Nat))) (ct : Nat) :
    (solveModel cfg locs vehs D tmat none ct).routes = [] ∧
    (solveModel cfg locs vehs D tmat none ct).total_distance = 0 ∧
    (solveModel cfg locs vehs D tmat none ct).total_time = 0 ∧
    (solveModel cfg locs vehs D tmat none ct).computation_time_ms = ct ∧
    (solveModel cfg locs vehs D tmat none ct).dropped_locations
      = ((List.range locs.length).filter (fun i => decide (0 < i))).map
          (fun i => (locs.getD i dummyLoc).id) :=
  ⟨rfl, rfl, rfl, rfl, drop_map_id_eq locs⟩

/-- C10: in every extracted solution — whatever the time matrix — each
route's `total_time` is its `total_distance` integer-divided by 50, the
solution's `total_time` is its `total_distance` integer-divided by 50,
and the solution's `total_distance` is the sum of the returned routes'
`total_distance` values. -/
theorem c10_time_and_distance_totals (cfg : VRPConfig) (locs : List Location)
    (vehs : List Vehicle) (D : List (List Nat))
    (tmat : Option (List (List Nat))) (a : List (List Nat)) (ct : Nat) :
    (∀ r ∈ (solveModel cfg locs vehs D tmat (some a) ct).routes,
        r.total_time = r.total_distance / 50) ∧
    (solveModel cfg locs vehs D tmat (some a) ct).total_time
      = (solveModel cfg locs vehs D tmat (some a) ct).total_distance / 50 ∧
    (solveModel cfg locs vehs D tmat (some a) ct).total_distance
      = ((solveModel cfg locs vehs D tmat (some a) ct).routes.map
          Route.total_distance).sum := by
  refine ⟨?_, rfl, rfl⟩
  intro r hr
  simp only [solveModel, extractSolution, extractRoutes] at hr
  rcases List.mem_filter.mp hr with ⟨hmem, _⟩
  rcases List.mem_map.mp hmem with ⟨v, _, rfl⟩
  rfl

theorem arctan_nonneg_of_nonneg {t : ℝ} (h : 0 ≤ t) : 0 ≤ Real.arctan t := by
  have hm := Real.arctan_strictMono.monotone h
  rwa [Real.arctan_zero] at hm

theorem arctan2_nonneg {y x : ℝ} (hy : 0 ≤ y) : 0 ≤ arctan2 y x := by
  unfold arctan2
  by_cases h1 : 0 < x
  · rw [if_pos h1]
    exact arctan_nonneg_of_nonneg (div_nonneg hy h1.le)
  · rw [if_neg h1]
    by_cases h2 : x < 0
    · rw [if_pos h2, if_pos hy]
      have ha := Real.neg_pi_div_two_lt_arctan (y / x)
      have hp := Real.pi_pos
      linarith
    · rw [if_neg h2]
      by_cases h3 : 0 < y
      · rw [if_pos h3]
        have := Real.pi_pos
        linarith
      · rw [if_neg h3, if_neg (not_lt.mpr hy)]

theorem haversineReal_nonneg (lat1 lon1 lat2 lon2 : ℝ) :
    0 ≤ haversineReal lat1 lon1 lat2 lon2 := by
  unfold haversineReal haversineC
  have h2 : (0:ℝ) ≤ 2 * arctan2 (Real.sqrt (haversineA lat1 lon1 lat2 lon2))
      (Real.sqrt (1 - haversineA lat1 lon1 lat2 lon2)) :=
    mul_nonneg (by norm_num) (arctan2_nonneg (Real.sqrt_nonneg _))
  exact mul_nonneg (by norm_num) h2

theorem radians_zero : radians 0 = 0 := by
  unfold radians
  ring

/-- Evaluation of the haversine formula along the equator at the longitude
difference chosen so that the true distance is exactly 1.5 meters. -/
theorem haversineReal_eval :
    haversineReal 0 0 0 (270 / (Real.pi * 6371000)) = 3 / 2 := by
  have hπ : Real.pi ≠ 0 := Real.pi_ne_zero
  have hπ3 : (3:ℝ) < Real.pi := Real.pi_gt_three
  have hl : radians (270 / (Real.pi * 6371000) - 0) = 3 / 12742000 := by
    unfold radians
    field_simp
    ring
  have hs0 : (0:ℝ) < 3 / 25484000 := by norm_num
  have hs2 : (3:ℝ) / 25484000 < Real.pi / 2 := by linarith
  have hA : haversineA 0 0 0 (270 / (Real.pi * 6371000))
      = Real.sin (3 / 25484000) ^ 2 := by
    unfold haversineA
    rw [show (0:ℝ) - 0 = 0 from by ring, radians_zero, hl]
    simp [Real.cos_zero, Real.sin_zero]
    norm_num
  have hsin_nonneg : 0 ≤ Real.sin (3 / 25484000) :=
    Real.sin_nonneg_of_nonneg_of_le_pi hs0.le (by linarith)
  have hcos_pos : 0 < Real.cos (3 / 25484000) :=
    Real.cos_pos_of_mem_Ioo ⟨by linarith, hs2⟩
  have hC : haversineC 0 0 0 (270 / (Real.pi * 6371000)) = 3 / 12742000 := by
    unfold haversineC
    rw [hA]
    rw [Real.sqrt_sq hsin_nonneg]
    rw [show (1:ℝ) - Real.sin (3 / 25484000) ^ 2 = Real.cos (3 / 25484000) ^ 2 from by
      have := Real.sin_sq_add_cos_sq (3 / 25484000)
      linarith]
    rw [Real.sqrt_sq hcos_pos.le]
    unfold arctan2
    rw [if_pos hcos_pos]
    rw [← Real.tan_eq_sin_div_cos]
    rw [Real.arctan_tan (by linarith) hs2]
    ring
  unfold haversineReal
  rw [hC]
  norm_num

/-- C7: `calculate_distance_matrix` is a deterministic function of the
input coordinates in their input order: two location lists that agree
pointwise on latitude and longitude produce equal matrices, whatever their
other fields (and, the embedding being pure, repeated calls on the same
list are bit-identical and the input is never mutated). -/
theorem c7_matrix_determinism (l1 l2 : List Location)
    (hlen : l1.length = l2.length)
    (hcoord : ∀ k, k < l1.length →
      (l1.getD k dummyLoc).latitude = (l2.getD k dummyLoc).latitude ∧
      (l1.getD k dummyLoc).longitude = (l2.getD k dummyLoc).longitude) :
    calculate_distance_matrix l1 = calculate_distance_matrix l2 := by
  unfold calculate_distance_matrix
  rw [← hlen]
  apply List.map_congr_left
  intro i hi
  have hi2 : i < l1.length := List.mem_range.mp hi
  apply List.map_congr_left
  intro j hj
  have hj2 : j < l1.length := List.mem_range.mp hj
  by_cases hij : i = j
  · simp [hij]
  · rw [if_neg hij, if_neg hij]
    rw [(hcoord i hi2).1, (hcoord i hi2).2, (hcoord j hj2).1, (hcoord j hj2).2]

/-- Witness for C7: two concrete lists sharing coordinates but differing in
ids, demands and service times produce the same matrix. -/
theorem c7_matrix_determinism_witness :
    [locA, locB].length = [locA2, locB2].length ∧
    calculate_distance_matrix [locA, locB]
      = calculate_distance_matrix [locA2, locB2] :=
  ⟨rfl, c7_matrix_determinism [locA, locB] [locA2, locB2] rfl (by
    intro k hk
    simp only [List.length_cons, List.length_nil] at hk
    interval_cases k
    · exact ⟨rfl, rfl⟩
    · exact ⟨rfl, rfl⟩)⟩

/-- C8 counterexample: along the equator at longitude difference
`270 / (π · 6371000)` degrees the great-circle distance computed by the
formula is exactly 1.5 m; the nearest integer is 2, but the source's
`int(R * c)` truncates and returns 1. -/
theorem c8_truncates_not_rounds :
    haversine_distance 0 0 0 (270 / (Real.pi * 6371000)) = 1 ∧
    round (haversineReal 0 0 0 (270 / (Real.pi * 6371000))) = 2 ∧
    haversine_distance 0 0 0 (270 / (Real.pi * 6371000))
      ≠ round (haversineReal 0 0 0 (270 / (Real.pi * 6371000))) := by
  have h1 : haversine_distance 0 0 0 (270 / (Real.pi * 6371000)) = 1 := by
    unfold haversine_distance pyInt
    rw [haversineReal_eval]
    rw [if_pos (by norm_num)]
    rw [Int.floor_eq_iff]
    constructor <;> norm_num
  have h2 : round (haversineReal 0 0 0 (270 / (Real.pi * 6371000))) = 2 := by
    rw [haversineReal_eval, round_eq, Int.floor_eq_iff]
    constructor <;> norm_num
  exact ⟨h1, h2, by rw [h1, h2]; decide⟩

/-- C8 amended: `haversine_distance` returns the great-circle distance in
meters truncated to an integer (the floor, the value being non-negative),
not rounded to nearest: it underestimates the real formula value by less
than one meter. -/
theorem c8_floor_truncation_bounds (lat1 lon1 lat2 lon2 : ℝ) :
    (haversine_distance lat1 lon1 lat2 lon2 : ℝ)
        ≤ haversineReal lat1 lon1 lat2 lon2 ∧
      haversineReal lat1 lon1 lat2 lon2
        < (haversine_distance lat1 lon1 lat2 lon2 : ℝ) + 1 := by
  unfold haversine_distance pyInt
  rw [if_pos (haversineReal_nonneg lat1 lon1 lat2 lon2)]
  exact ⟨Int.floor_le _, Int.lt_floor_add_one _⟩

/-- Witness for C10 at a concrete instance. -/
theorem c10_time_and_distance_totals_witness :
    (solveModel cfg0 locsLate vehs1 dmat3000 none (some asgnVisit) 0).total_time
      = (solveModel cfg0 locsLate vehs1 dmat3000 none
          (some asgnVisit) 0).total_distance / 50 ∧
    ∀ r ∈ (solveModel cfg0 locsLate vehs1 dmat3000 none (some asgnVisit) 0).routes,
      r.total_time = r.total_distance / 50 :=
  ⟨(c10_time_and_distance_totals cfg0 locsLate vehs1 dmat3000 none asgnVisit 0).2.1,
   (c10_time_and_distance_totals cfg0 locsLate vehs1 dmat3000 none asgnVisit 0).1⟩

end OmniRoute
